import Mathlib

/-!
Verification of the AI-Pirate-Assistant backend against its specification.

The development shallowly embeds the Python sources:
* `src/services/memory.py` (`MemoryStore`): a file-backed, cached per-session
  message store.  The in-memory cache and the on-disk session files are both
  modelled as association lists keyed by session id; the JSON payload written
  by the store (`{"messages": ..., "summary": ...}`) is modelled by `Entry`.
  Messages are opaque to the store, so the model is polymorphic in the
  message type.
* `src/services/stt.py`, `src/services/llm.py`, `src/services/tts.py`:
  provider adapters, embedded as pure functions over an environment record
  that fixes the outcome of every external interaction (configuration flags,
  file-system probes, provider responses, raised exception classes).
* `src/captain.py` (`voice_chat_with_captain` and `PirateMemoryStore`):
  the voice pipeline, embedded as a state-passing function that additionally
  records which external stages were invoked.

File-system failure modes that the sources silently absorb (corrupted JSON,
the legacy bare-list format, `unlink` errors) do not arise for states
produced by the store itself and are outside the model.
-/

namespace AIPirate

/-! ### Association lists standing for Python dicts / per-session files -/

/-- Lookup in an association list keyed by session id (Python `dict.get`). -/
def aget {β : Type} : List (String × β) → String → Option β
  | [], _ => none
  | (k, v) :: rest, key => if key = k then some v else aget rest key

/-- Update/insert a key (Python `dict.__setitem__`, resp. writing a session file). -/
def aset {β : Type} (l : List (String × β)) (key : String) (v : β) : List (String × β) :=
  (key, v) :: l.filter (fun p => !(p.1 = key : Bool))

/-- Remove a key (Python `dict.pop(key, None)`, resp. `Path.unlink`). -/
def adel {β : Type} (l : List (String × β)) (key : String) : List (String × β) :=
  l.filter (fun p => !(p.1 = key : Bool))

theorem aget_filter_ne {β : Type} (l : List (String × β)) (key : String) :
    aget (l.filter (fun p => !(p.1 = key : Bool))) key = none := by
  induction l with
  | nil => rfl
  | cons hd tl ih =>
    by_cases h : hd.1 = key
    · simpa [List.filter, h] using ih
    · simp [List.filter, h, aget, Ne.symm h, ih]

theorem aget_filter_of_ne {β : Type} (l : List (String × β)) (key key' : String)
    (h : key' ≠ key) :
    aget (l.filter (fun p => !(p.1 = key : Bool))) key' = aget l key' := by
  induction l with
  | nil => rfl
  | cons hd tl ih =>
    by_cases hk : hd.1 = key
    · have : key' ≠ hd.1 := by simpa [hk] using h
      simp [List.filter, hk, aget, this, h, ih]
    · by_cases hk' : key' = hd.1
      · simp [List.filter, hk, aget, hk']
      · simp [List.filter, hk, aget, hk', ih]

@[simp] theorem aget_aset_self {β : Type} (l : List (String × β)) (key : String) (v : β) :
    aget (aset l key v) key = some v := by
  simp [aset, aget]

theorem aget_aset_of_ne {β : Type} (l : List (String × β)) (key key' : String) (v : β)
    (h : key' ≠ key) :
    aget (aset l key v) key' = aget l key' := by
  simp [aset, aget, h, aget_filter_of_ne l key key' h]

@[simp] theorem aget_adel_self {β : Type} (l : List (String × β)) (key : String) :
    aget (adel l key) key = none :=
  aget_filter_ne l key

theorem aget_adel_of_ne {β : Type} (l : List (String × β)) (key key' : String)
    (h : key' ≠ key) :
    aget (adel l key) key' = aget l key' :=
  aget_filter_of_ne l key key' h

theorem adel_of_aget_none {β : Type} (l : List (String × β)) (key : String)
    (h : aget l key = none) : adel l key = l := by
  induction l with
  | nil => rfl
  | cons hd tl ih =>
    by_cases hk : key = hd.1
    · simp [aget, hk] at h
    · simp [aget, hk] at h
      simp [adel, List.filter, Ne.symm hk] at ih ⊢
      exact ih h

theorem adel_adel {β : Type} (l : List (String × β)) (key : String) :
    adel (adel l key) key = adel l key := by
  simp [adel, List.filter_filter]

/-! ### `MemoryStore` (src/services/memory.py)

`Entry` is the cached value for one session and also the JSON document the
store writes to the session's file: `{"messages": msgs, "summary": s}`. -/

structure Entry (α : Type) where
  messages : List α
  summary : String
deriving DecidableEq, Repr

/-- State of one `MemoryStore`: the in-memory `_cache` and the session files
under `base_path`. -/
structure Store (α : Type) where
  cache : List (String × Entry α)
  files : List (String × Entry α)
deriving DecidableEq, Repr

/-- A freshly constructed store over an empty session directory. -/
def emptyStore {α : Type} : Store α := ⟨[], []⟩

/-- `MemoryStore.get_messages`: serve from cache; otherwise load the session
file into the cache (or cache an empty entry) and return the messages. -/
def get_messages {α : Type} (s : Store α) (sid : String) : List α × Store α :=
  match aget s.cache sid with
  | some e => (e.messages, s)
  | none =>
    match aget s.files sid with
    | some e => (e.messages, { s with cache := aset s.cache sid e })
    | none => ([], { s with cache := aset s.cache sid ⟨[], ""⟩ })

/-- The list update performed by `append_message`:
`msgs.append(message)` followed by `if len(msgs) > 100: msgs = msgs[-80:]`. -/
def truncAppend {α : Type} (l : List α) (m : α) : List α :=
  if (l ++ [m]).length > 100 then (l ++ [m]).drop ((l ++ [m]).length - 80) else l ++ [m]

/-- `MemoryStore.append_message`: read the cache entry (note: the session
file is NOT consulted on a cache miss), append, truncate, then write both the
cache and the session file. -/
def append_message {α : Type} (s : Store α) (sid : String) (m : α) : Store α :=
  let entry := (aget s.cache sid).getD ⟨[], ""⟩
  let msgs := truncAppend entry.messages m
  { cache := aset s.cache sid ⟨msgs, entry.summary⟩,
    files := aset s.files sid ⟨msgs, entry.summary⟩ }

/-- `MemoryStore.clear_session`: drop the cache entry and delete the file. -/
def clear_session {α : Type} (s : Store α) (sid : String) : Store α :=
  { cache := adel s.cache sid, files := adel s.files sid }

/-- Python's `msgs[-limit:]` (note `msgs[-0:]` is the whole list). -/
def pySliceLast {α : Type} (l : List α) (limit : Nat) : List α :=
  if limit = 0 then l else l.drop (l.length - limit)

/-- `MemoryStore.get_recent_messages`. -/
def get_recent_messages {α : Type} (s : Store α) (sid : String) (limit : Nat) :
    List α × Store α :=
  (if (get_messages s sid).1.length > limit
    then pySliceLast (get_messages s sid).1 limit
    else (get_messages s sid).1,
   (get_messages s sid).2)

/-- `MemoryStore.get_summary`: force a cache load via `get_messages`, then
read the cached summary. -/
def get_summary {α : Type} (s : Store α) (sid : String) : String × Store α :=
  (((aget (get_messages s sid).2.cache sid).getD ⟨[], ""⟩).summary,
   (get_messages s sid).2)

/-- `MemoryStore.set_summary`: force a cache load, overwrite the summary in
the cache entry, and rewrite the session file with the entry's messages and
the new summary. -/
def set_summary {α : Type} (s : Store α) (sid : String) (x : String) : Store α :=
  { cache := aset (get_messages s sid).2.cache sid
      ⟨((aget (get_messages s sid).2.cache sid).getD ⟨[], ""⟩).messages, x⟩,
    files := aset (get_messages s sid).2.files sid
      ⟨((aget (get_messages s sid).2.cache sid).getD ⟨[], ""⟩).messages, x⟩ }

/-- Iterated `append_message` calls for one session. -/
def append_all {α : Type} (s : Store α) (sid : String) (ms : List α) : Store α :=
  ms.foldl (fun acc m => append_message acc sid m) s

/-- Cache eviction: the state in which the in-memory entry for a session has
been dropped (e.g. a process restart over the same session directory), so a
later read must reload from the persisted file. -/
def evict {α : Type} (s : Store α) (sid : String) : Store α :=
  { s with cache := adel s.cache sid }

/-! ### Basic facts about the store operations -/

/-- The messages a session currently holds according to the cache (what
`append_message` starts from). -/
def cachedMessages {α : Type} (s : Store α) (sid : String) : List α :=
  ((aget s.cache sid).getD ⟨[], ""⟩).messages

/-- The cached summary of a session (empty default, as in the source). -/
def cachedSummary {α : Type} (s : Store α) (sid : String) : String :=
  ((aget s.cache sid).getD ⟨[], ""⟩).summary

theorem get_messages_files {α : Type} (s : Store α) (sid : String) :
    (get_messages s sid).2.files = s.files := by
  unfold get_messages
  rcases h : aget s.cache sid with _ | e
  · rcases h2 : aget s.files sid with _ | e2 <;> simp [h, h2]
  · simp [h]

theorem get_messages_cache_loaded {α : Type} (s : Store α) (sid : String) :
    aget (get_messages s sid).2.cache sid
      = some ⟨(get_messages s sid).1, cachedSummary (get_messages s sid).2 sid⟩ := by
  unfold get_messages cachedSummary
  rcases h : aget s.cache sid with _ | e
  · rcases h2 : aget s.files sid with _ | e2 <;> simp [h, h2]
  · simp [h]

theorem truncAppend_length_le {α : Type} (l : List α) (m : α)
    (h : l.length ≤ 100) : (truncAppend l m).length ≤ 100 := by
  unfold truncAppend
  split <;> rename_i h1 <;>
    simp only [List.length_drop, List.length_append, List.length_cons,
      List.length_nil] at h1 ⊢ <;>
    omega

theorem truncAppend_length_eq_80 {α : Type} (l : List α) (m : α)
    (h : l.length = 100) :
    (truncAppend l m).length = 80 ∧ truncAppend l m = (l ++ [m]).drop 21 := by
  have hl : (l ++ [m]).length = 101 := by simp [h]
  have h2 : truncAppend l m = (l ++ [m]).drop 21 := by
    unfold truncAppend
    rw [hl]
    norm_num
  refine ⟨?_, h2⟩
  rw [h2]
  simp [List.length_drop, hl]

theorem truncAppend_suffix {α : Type} (l p : List α) (m : α)
    (h : l.IsSuffix p) : (truncAppend l m).IsSuffix (p ++ [m]) := by
  obtain ⟨t, ht⟩ := h
  have hbase : (l ++ [m]).IsSuffix (p ++ [m]) := ⟨t, by rw [← ht, List.append_assoc]⟩
  unfold truncAppend
  split
  · refine List.IsSuffix.trans ?_ hbase
    exact ⟨(l ++ [m]).take ((l ++ [m]).length - 80), List.take_append_drop _ _⟩
  · exact hbase

theorem foldl_truncAppend_length {α : Type} (ms : List α) (l : List α)
    (h : l.length ≤ 100) :
    (ms.foldl truncAppend l).length ≤ 100 := by
  induction ms generalizing l with
  | nil => simpa using h
  | cons m rest ih => exact ih _ (truncAppend_length_le l m h)

theorem foldl_truncAppend_suffix {α : Type} (ms : List α) (l p : List α)
    (h : l.IsSuffix p) :
    (ms.foldl truncAppend l).IsSuffix (p ++ ms) := by
  induction ms generalizing l p with
  | nil => simpa using h
  | cons m rest ih =>
    have step := truncAppend_suffix l p m h
    have := ih (truncAppend l m) (p ++ [m]) step
    simpa [List.append_assoc] using this

theorem append_message_cached {α : Type} (s : Store α) (sid : String) (m : α) :
    cachedMessages (append_message s sid m) sid
      = truncAppend (cachedMessages s sid) m ∧
    cachedSummary (append_message s sid m) sid = cachedSummary s sid ∧
    aget (append_message s sid m).files sid
      = some ⟨truncAppend (cachedMessages s sid) m, cachedSummary s sid⟩ := by
  unfold append_message cachedMessages cachedSummary
  simp

theorem append_all_cached {α : Type} (ms : List α) (s : Store α) (sid : String) :
    cachedMessages (append_all s sid ms) sid
      = ms.foldl truncAppend (cachedMessages s sid) := by
  induction ms generalizing s with
  | nil => simp [append_all]
  | cons m rest ih =>
    have step := append_message_cached s sid m
    show cachedMessages (append_all (append_message s sid m) sid rest) sid = _
    rw [ih (append_message s sid m), step.1]
    rfl

theorem append_all_files {α : Type} (ms : List α) (s : Store α) (sid : String)
    (hne : ms ≠ []) :
    aget (append_all s sid ms).files sid
      = some ⟨cachedMessages (append_all s sid ms) sid,
              cachedSummary s sid⟩ := by
  induction ms generalizing s with
  | nil => exact absurd rfl hne
  | cons m rest ih =>
    rcases rest with _ | ⟨m2, rest2⟩
    · show aget (append_message s sid m).files sid = some ⟨cachedMessages (append_message s sid m) sid, _⟩
      rw [(append_message_cached s sid m).2.2, (append_message_cached s sid m).1]
    · show aget (append_all (append_message s sid m) sid (m2 :: rest2)).files sid = _
      rw [ih (append_message s sid m) (by simp)]
      rw [(append_message_cached s sid m).2.1]
      rfl

theorem get_messages_of_cached {α : Type} (s : Store α) (sid : String)
    (e : Entry α) (h : aget s.cache sid = some e) :
    get_messages s sid = (e.messages, s) := by
  unfold get_messages
  simp [h]

@[simp] theorem cachedMessages_empty {α : Type} (sid : String) :
    cachedMessages (emptyStore : Store α) sid = [] := rfl

@[simp] theorem cachedSummary_empty {α : Type} (sid : String) :
    cachedSummary (emptyStore : Store α) sid = "" := rfl

/-! ### Claim C1 -/

set_option maxRecDepth 40000 in
/-- Claim C1 as stated is false: starting from a fresh session, 102 successful
`append_message` calls (102 > 100) leave 81 stored messages, not at most 80 —
the code truncates to 80 only at the moment the length exceeds 100, after
which the count climbs back towards 100. -/
theorem append_over_100_count_counterexample :
    100 < (List.range 102).length ∧
    ¬ (cachedMessages (append_all (emptyStore : Store Nat) "s" (List.range 102)) "s").length ≤ 80 := by
  decide

/-- Claim C1 (amended): for every session, after N successful `append_message`
calls with N > 100 starting from a fresh session, the stored message count is
at most 100 (not 80), and the retained messages are exactly the most recent
ones of those appended, in their original append order (a suffix of the
appended sequence); the session file holds the same retained sequence. -/
theorem append_over_100_count_bounded {α : Type} (sid : String) (ms : List α)
    (h : 100 < ms.length) :
    (cachedMessages (append_all emptyStore sid ms) sid).length ≤ 100 ∧
    (cachedMessages (append_all emptyStore sid ms) sid).IsSuffix ms ∧
    aget (append_all (emptyStore : Store α) sid ms).files sid
      = some ⟨cachedMessages (append_all emptyStore sid ms) sid, ""⟩ := by
  have hne : ms ≠ [] := by
    intro e
    rw [e] at h
    simp at h
  refine ⟨?_, ?_, ?_⟩
  · rw [append_all_cached, cachedMessages_empty]
    exact foldl_truncAppend_length ms [] (by simp)
  · rw [append_all_cached, cachedMessages_empty]
    have := foldl_truncAppend_suffix ms [] [] ⟨[], rfl⟩
    simpa using this
  · rw [append_all_files ms emptyStore sid hne, cachedSummary_empty]

/-- Witness for the amended C1 theorem at a concrete 101-message run. -/
theorem append_over_100_count_bounded_witness :
    100 < (List.range 101).length ∧
    ((cachedMessages (append_all (emptyStore : Store Nat) "s" (List.range 101)) "s").length ≤ 100 ∧
     (cachedMessages (append_all (emptyStore : Store Nat) "s" (List.range 101)) "s").IsSuffix (List.range 101) ∧
     aget (append_all (emptyStore : Store Nat) "s" (List.range 101)).files "s"
       = some ⟨cachedMessages (append_all (emptyStore : Store Nat) "s" (List.range 101)) "s", ""⟩) :=
  ⟨by decide, append_over_100_count_bounded "s" (List.range 101) (by decide)⟩

/-! ### Claim C2 -/

/-- Claim C2 as stated is false at a store whose cache is cold while a
persisted session file exists (the state after a restart over an existing
session directory): `append_message` starts from an empty cache entry instead
of the persisted messages, so the resulting stored sequence is `[m]` rather
than the persisted `[0]` extended by `m`, and the file is overwritten
accordingly. -/
theorem append_cold_cache_counterexample :
    (get_messages (⟨[], [("s", ⟨[0], ""⟩)]⟩ : Store Nat) "s").1 = [0] ∧
    (get_messages (append_message (⟨[], [("s", ⟨[0], ""⟩)]⟩ : Store Nat) "s" 1) "s").1 = [1] ∧
    aget (append_message (⟨[], [("s", ⟨[0], ""⟩)]⟩ : Store Nat) "s" 1).files "s"
      = some ⟨[1], ""⟩ ∧
    ([1] : List Nat) ≠ [0] ++ [1] := by
  decide

/-- Claim C2 (amended): for every session id and message, provided the
session is present in the in-memory cache or absent from persisted storage
(always the case within a single store lifetime), `append_message` extends
the stored sequence by exactly that one message at the end subject to the
length-100 truncation rule, and the resulting sequence is both what a
subsequent `get_messages` returns and what is persisted to the session
file. -/
theorem append_message_extends {α : Type} (s : Store α) (sid : String) (m : α)
    (h : (aget s.cache sid).isSome = true ∨ aget s.files sid = none) :
    (get_messages (append_message s sid m) sid).1
      = truncAppend (get_messages s sid).1 m ∧
    aget (append_message s sid m).files sid
      = some ⟨truncAppend (get_messages s sid).1 m, cachedSummary s sid⟩ := by
  have hm : (get_messages s sid).1 = cachedMessages s sid := by
    rcases hc : aget s.cache sid with _ | e
    · rcases h with h | h
      · rw [hc] at h
        simp at h
      · unfold get_messages cachedMessages
        simp [hc, h]
    · unfold get_messages cachedMessages
      simp [hc]
  have hcach := append_message_cached s sid m
  constructor
  · rw [hm]
    unfold append_message get_messages
    simp [cachedMessages]
  · rw [hm]
    exact hcach.2.2

/-- Witness for the amended C2 theorem: a fresh store, where the session is
absent from persisted storage. -/
theorem append_message_extends_witness :
    ((aget (emptyStore : Store Nat).cache "s").isSome = true ∨
      aget (emptyStore : Store Nat).files "s" = none) ∧
    ((get_messages (append_message (emptyStore : Store Nat) "s" 5) "s").1
        = truncAppend (get_messages (emptyStore : Store Nat) "s").1 5 ∧
      aget (append_message (emptyStore : Store Nat) "s" 5).files "s"
        = some ⟨truncAppend (get_messages (emptyStore : Store Nat) "s").1 5,
                cachedSummary (emptyStore : Store Nat) "s"⟩) :=
  ⟨Or.inr rfl, append_message_extends emptyStore "s" 5 (Or.inr rfl)⟩

/-! ### Claim C8 -/

theorem set_summary_lookup {α : Type} (s : Store α) (sid : String) (x : String) :
    aget (set_summary s sid x).cache sid = some ⟨(get_messages s sid).1, x⟩ ∧
    aget (set_summary s sid x).files sid = some ⟨(get_messages s sid).1, x⟩ := by
  unfold set_summary
  rw [get_messages_cache_loaded]
  simp

/-- Claim C8: `set_summary(sid, X)` followed by `get_summary(sid)` returns X,
both directly and after the in-memory cache entry is evicted, forcing
`get_summary` to reload the session from the persisted file. -/
theorem summary_roundtrip {α : Type} (s : Store α) (sid : String) (x : String) :
    (get_summary (set_summary s sid x) sid).1 = x ∧
    (get_summary (evict (set_summary s sid x) sid) sid).1 = x := by
  obtain ⟨hc, hf⟩ := set_summary_lookup s sid x
  constructor
  · unfold get_summary
    rw [get_messages_of_cached (set_summary s sid x) sid _ hc]
    simp [hc]
  · have hc2 : aget (evict (set_summary s sid x) sid).cache sid = none :=
      aget_adel_self _ _
    have hf2 : aget (evict (set_summary s sid x) sid).files sid
        = some ⟨(get_messages s sid).1, x⟩ := hf
    unfold get_summary get_messages
    simp [hc2, hf2]

/-! ### Claim C9 -/

/-- Claim C9: `clear_session` followed by `get_messages` returns the empty
sequence (the cache entry and the backing file are both removed), a second
`clear_session` is a no-op on the already-cleared state, and clearing a
session that never existed leaves the store unchanged. -/
theorem clear_session_spec {α : Type} (s : Store α) (sid : String) :
    (get_messages (clear_session s sid) sid).1 = [] ∧
    clear_session (clear_session s sid) sid = clear_session s sid ∧
    (aget s.cache sid = none → aget s.files sid = none →
      clear_session s sid = s) := by
  refine ⟨?_, ?_, ?_⟩
  · unfold get_messages clear_session
    simp
  · unfold clear_session
    simp [adel_adel]
  · intro hc hf
    unfold clear_session
    rw [adel_of_aget_none _ _ hc, adel_of_aget_none _ _ hf]

/-- Witness for C9's idempotence hypotheses at a fresh store, where the
session never existed. -/
theorem clear_session_spec_witness :
    aget (emptyStore : Store Nat).cache "s" = none ∧
    aget (emptyStore : Store Nat).files "s" = none ∧
    clear_session (emptyStore : Store Nat) "s" = emptyStore :=
  ⟨rfl, rfl, (clear_session_spec (emptyStore : Store Nat) "s").2.2 rfl rfl⟩

/-! ### Claim C10 -/

/-- An association list (cache or file directory) in which every session's
message list has at most 100 entries. -/
def BoundedList {α : Type} (l : List (String × Entry α)) : Prop :=
  ∀ sid e, aget l sid = some e → e.messages.length ≤ 100

/-- The C10 invariant: every session's stored message count, in the cache and
in the session files written by the store, is at most 100. -/
def StoreBounded {α : Type} (s : Store α) : Prop :=
  BoundedList s.cache ∧ BoundedList s.files

theorem boundedList_aset {α : Type} {l : List (String × Entry α)} {k : String}
    {v : Entry α} (hl : BoundedList l) (hv : v.messages.length ≤ 100) :
    BoundedList (aset l k v) := by
  intro sid e he
  by_cases hs : sid = k
  · subst hs
    rw [aget_aset_self] at he
    cases he
    exact hv
  · rw [aget_aset_of_ne _ _ _ _ hs] at he
    exact hl _ _ he

theorem boundedList_adel {α : Type} {l : List (String × Entry α)} {k : String}
    (hl : BoundedList l) : BoundedList (adel l k) := by
  intro sid e he
  by_cases hs : sid = k
  · subst hs
    rw [aget_adel_self] at he
    cases he
  · rw [aget_adel_of_ne _ _ _ hs] at he
    exact hl _ _ he

theorem cachedMessages_length_le {α : Type} {s : Store α} (sid : String)
    (h : BoundedList s.cache) : (cachedMessages s sid).length ≤ 100 := by
  unfold cachedMessages
  rcases hh : aget s.cache sid with _ | e
  · simp
  · exact h _ _ hh

theorem get_messages_bounded {α : Type} {s : Store α} (sid : String)
    (h : StoreBounded s) :
    StoreBounded (get_messages s sid).2 ∧ (get_messages s sid).1.length ≤ 100 := by
  unfold get_messages
  rcases hc : aget s.cache sid with _ | e
  · rcases hf : aget s.files sid with _ | e2
    · exact ⟨⟨boundedList_aset h.1 (by simp), h.2⟩, by simp⟩
    · exact ⟨⟨boundedList_aset h.1 (h.2 _ _ hf), h.2⟩, h.2 _ _ hf⟩
  · exact ⟨h, h.1 _ _ hc⟩

/-- Claim C10: every `MemoryStore` operation preserves the invariant that
each session's stored message count — in the cache and in the persisted file
written by the store — is at most 100, and an append that would reach 101
messages truncates the sequence to the most recent 80 before storing. -/
theorem store_ops_preserve_bound {α : Type} (s : Store α) (sid : String)
    (m : α) (x : String) (lim : Nat) (h : StoreBounded s) :
    StoreBounded (append_message s sid m) ∧
    StoreBounded (get_messages s sid).2 ∧
    StoreBounded (clear_session s sid) ∧
    StoreBounded (set_summary s sid x) ∧
    StoreBounded (get_summary s sid).2 ∧
    StoreBounded (get_recent_messages s sid lim).2 ∧
    (∀ l : List α, l.length = 100 →
      (truncAppend l m).length = 80 ∧ truncAppend l m = (l ++ [m]).drop 21) := by
  have hget := get_messages_bounded sid h
  have happend : StoreBounded (append_message s sid m) := by
    have hlen : (truncAppend (cachedMessages s sid) m).length ≤ 100 :=
      truncAppend_length_le _ _ (cachedMessages_length_le sid h.1)
    unfold append_message
    exact ⟨boundedList_aset h.1 hlen, boundedList_aset h.2 hlen⟩
  have hset : StoreBounded (set_summary s sid x) := by
    unfold set_summary
    rw [get_messages_cache_loaded]
    refine ⟨boundedList_aset hget.1.1 ?_, boundedList_aset hget.1.2 ?_⟩ <;>
      simpa using hget.2
  refine ⟨happend, hget.1, ?_, hset, ?_, ?_, ?_⟩
  · exact ⟨boundedList_adel h.1, boundedList_adel h.2⟩
  · unfold get_summary
    exact hget.1
  · unfold get_recent_messages
    exact hget.1
  · intro l hl
    exact truncAppend_length_eq_80 l m hl

/-- Witness for C10 at the fresh empty store, which satisfies the
invariant. -/
theorem store_ops_preserve_bound_witness :
    StoreBounded (emptyStore : Store Nat) ∧
    (StoreBounded (append_message (emptyStore : Store Nat) "s" 0) ∧
     StoreBounded (get_messages (emptyStore : Store Nat) "s").2 ∧
     StoreBounded (clear_session (emptyStore : Store Nat) "s") ∧
     StoreBounded (set_summary (emptyStore : Store Nat) "s" "x") ∧
     StoreBounded (get_summary (emptyStore : Store Nat) "s").2 ∧
     StoreBounded (get_recent_messages (emptyStore : Store Nat) "s" 6).2 ∧
     (∀ l : List Nat, l.length = 100 →
       (truncAppend l 0).length = 80 ∧ truncAppend l 0 = (l ++ [0]).drop 21)) := by
  have hb : StoreBounded (emptyStore : Store Nat) :=
    ⟨fun sid e he => by simp [aget, emptyStore] at he,
     fun sid e he => by simp [aget, emptyStore] at he⟩
  exact ⟨hb, store_ops_preserve_bound emptyStore "s" 0 "x" 6 hb⟩

/-! ### Error taxonomy (src/schemas/models.py `ErrorType`) -/

inductive ErrorType where
  | STT_ERROR
  | LLM_ERROR
  | TTS_ERROR
  | FILE_ERROR
  | NETWORK_ERROR
  | CONFIG_ERROR
deriving DecidableEq, Repr

/-! ### Speech-to-text adapter (src/services/stt.py `speech_to_text`)

The external world is summarised by an environment: whether the credential
is configured, whether the audio file exists and its size, and what the
provider interaction does (reports an error status, completes with a
transcript — possibly `None` —, raises a `requests` network exception, or
raises any other exception). -/

inductive SttOutcome where
  /-- `transcript.status == aai.TranscriptStatus.error` -/
  | providerError
  /-- transcription completed; the payload is `transcript.text` (may be `None`) -/
  | transcriptText (t : Option String)
  /-- `requests.exceptions.RequestException` raised -/
  | requestExn
  /-- any other exception raised -/
  | otherExn
deriving DecidableEq, Repr

structure SttEnv where
  apiConfigured : Bool
  fileExists : Bool
  fileSize : Nat
  outcome : SttOutcome
deriving DecidableEq, Repr

def speech_to_text (env : SttEnv) : Bool × String × Option ErrorType :=
  if ¬ env.apiConfigured then (false, "", some ErrorType.CONFIG_ERROR)
  else if ¬ env.fileExists ∨ env.fileSize = 0 then (false, "", some ErrorType.FILE_ERROR)
  else match env.outcome with
    | .providerError => (false, "", some ErrorType.STT_ERROR)
    | .transcriptText t =>
        if (t.getD "").trim = "" then (false, "", some ErrorType.STT_ERROR)
        else (true, (t.getD "").trim, none)
    | .requestExn => (false, "", some ErrorType.NETWORK_ERROR)
    | .otherExn => (false, "", some ErrorType.STT_ERROR)

/-- Claim C6: the STT adapter's result classification — missing credential
fails with CONFIG_ERROR before anything else; a missing or empty audio file
fails with FILE_ERROR; a provider-reported error, an empty/whitespace-only
transcript, or any non-network exception fails with STT_ERROR; a network
exception fails with NETWORK_ERROR; success returns the trimmed
transcript. -/
theorem speech_to_text_classification :
    (∀ fe : Bool, ∀ sz : Nat, ∀ out : SttOutcome,
      speech_to_text ⟨false, fe, sz, out⟩ = (false, "", some ErrorType.CONFIG_ERROR)) ∧
    (∀ sz : Nat, ∀ out : SttOutcome,
      speech_to_text ⟨true, false, sz, out⟩ = (false, "", some ErrorType.FILE_ERROR)) ∧
    (∀ out : SttOutcome,
      speech_to_text ⟨true, true, 0, out⟩ = (false, "", some ErrorType.FILE_ERROR)) ∧
    (∀ n : Nat,
      speech_to_text ⟨true, true, n + 1, .providerError⟩
        = (false, "", some ErrorType.STT_ERROR)) ∧
    (∀ n : Nat, ∀ t : Option String,
      speech_to_text ⟨true, true, n + 1, .transcriptText t⟩
        = if (t.getD "").trim = "" then (false, "", some ErrorType.STT_ERROR)
          else (true, (t.getD "").trim, none)) ∧
    (∀ n : Nat,
      speech_to_text ⟨true, true, n + 1, .requestExn⟩
        = (false, "", some ErrorType.NETWORK_ERROR)) ∧
    (∀ n : Nat,
      speech_to_text ⟨true, true, n + 1, .otherExn⟩
        = (false, "", some ErrorType.STT_ERROR)) := by
  refine ⟨?_, ?_, ?_, ?_, ?_, ?_, ?_⟩ <;> intros <;> simp [speech_to_text]

/-! ### LLM adapter (src/services/llm.py `generate_response`) -/

inductive LlmOutcome where
  /-- `genai.types.BlockedPromptException` raised -/
  | blocked
  /-- `requests.exceptions.RequestException` raised -/
  | requestExn
  /-- any other exception raised -/
  | otherExn
  /-- the call returned; `text` is `getattr(response, "text", None)` with the
  falsy values (`None`, missing, falsy response object) collapsed to `""` -/
  | ok (text : String)
deriving DecidableEq, Repr

/-- The fixed apology returned for a blocked prompt. -/
def apologyText : String :=
  "I\x27m sorry, I can\x27t respond to that type of request. Could you please ask something else?"

def generate_response (apiConfigured : Bool) (outcome : LlmOutcome) :
    Bool × String × Option ErrorType :=
  if ¬ apiConfigured then (false, "", some ErrorType.CONFIG_ERROR)
  else match outcome with
    | .ok t => if t = "" then (false, "", some ErrorType.LLM_ERROR)
               else (true, t.trim, none)
    | .blocked => (true, apologyText, none)
    | .requestExn => (false, "", some ErrorType.NETWORK_ERROR)
    | .otherExn => (false, "", some ErrorType.LLM_ERROR)

/-- Claim C5: a blocked-content signal from the provider is returned as a
successful call carrying the fixed apology string and no error category,
while a call that succeeds with an empty response body is returned as a
failure with category LLM_ERROR. -/
theorem llm_blocked_succeeds_empty_fails :
    generate_response true .blocked = (true, apologyText, none) ∧
    generate_response true (.ok "") = (false, "", some ErrorType.LLM_ERROR) :=
  ⟨rfl, rfl⟩

/-! ### Text-to-speech adapter (src/services/tts.py `text_to_speech`)

One `MurfAttempt` is the outcome of a single `attempt_murf_request` call;
`TtsEnv.attempts` lists them in the iteration order of the header-variant ×
payload-variant loop.  `gttsAvailable`/`gttsEncoded` describe the offline
gTTS fallback (import availability; base64 payload or raised exception). -/

inductive MurfAttempt where
  /-- non-200 status, timeout, or any exception inside `attempt_murf_request` -/
  | httpFail (info : String)
  /-- HTTP 200 with the listed optional response-body fields -/
  | ok (audioFile url audioUrl audioData audioBase64 : Option String)
deriving DecidableEq, Repr

/-- Python truthiness of an optional string (`None` and `""` are falsy). -/
def pyTruthy : Option String → Bool
  | none => false
  | some s => !(s == "")

/-- Python `a or b` on optional strings. -/
def pyOr (a b : Option String) : Option String :=
  if pyTruthy a then a else b

/-- The audio reference the loop body extracts from one attempt:
`audioFile or url or audioUrl`, else a base64 payload from
`audioData or audioBase64`, else nothing. -/
def extractAudio : MurfAttempt → Option String
  | .httpFail _ => none
  | .ok af u au ad ab =>
    if pyTruthy (pyOr (pyOr af u) au) then pyOr (pyOr af u) au
    else if pyTruthy (pyOr ad ab) then
      some ("data:audio/mp3;base64," ++ (pyOr ad ab).getD "")
    else none

structure TtsEnv where
  murfConfigured : Bool
  gttsAvailable : Bool
  /-- `some b64` if gTTS synthesis succeeds with that payload, `none` if it raises -/
  gttsEncoded : Option String
  attempts : List MurfAttempt
deriving DecidableEq, Repr

/-- `_generate_fallback_audio`: gTTS audio if available and working, else the
text-only sentinel. -/
def generate_fallback_audio (text : String) (env : TtsEnv) : String :=
  if ¬ env.gttsAvailable then "TEXT_ONLY:" ++ text
  else match env.gttsEncoded with
    | some b64 => "data:audio/mp3;base64," ++ b64
    | none => "TEXT_ONLY:" ++ text

/-- `if len(text) > 3000: text = text[:2950] + "..."`. -/
def ttsTruncate (text : String) : String :=
  if text.length > 3000 then text.take 2950 ++ "..." else text

/-- The header × payload retry loop: first attempt yielding an audio
reference wins, otherwise the fallback is produced. -/
def murfLoop (attempts : List MurfAttempt) (fallback : String) : String :=
  match attempts with
  | [] => fallback
  | a :: rest =>
    match extractAudio a with
    | some s => s
    | none => murfLoop rest fallback

set_option linter.unusedVariables false in
def text_to_speech (text voiceId : String) (env : TtsEnv) :
    Bool × String × Option ErrorType :=
  if ¬ env.murfConfigured then (true, generate_fallback_audio text env, none)
  else (true, murfLoop env.attempts (generate_fallback_audio (ttsTruncate text) env), none)

theorem murfLoop_cases (attempts : List MurfAttempt) (fb : String) :
    murfLoop attempts fb = fb ∨
    ∃ a ∈ attempts, extractAudio a = some (murfLoop attempts fb) := by
  induction attempts with
  | nil => exact Or.inl rfl
  | cons a rest ih =>
    cases h : extractAudio a with
    | some s =>
      right
      exact ⟨a, by simp, by simp [murfLoop, h]⟩
    | none =>
      have hstep : murfLoop (a :: rest) fb = murfLoop rest fb := by
        simp [murfLoop, h]
      rcases ih with h2 | ⟨b, hb, he⟩
      · left
        rw [hstep, h2]
      · right
        exact ⟨b, by simp [hb], by rw [hstep]; exact he⟩

theorem generate_fallback_audio_shape (text : String) (env : TtsEnv) :
    generate_fallback_audio text env = "TEXT_ONLY:" ++ text ∨
    ∃ b, env.gttsEncoded = some b ∧
      generate_fallback_audio text env = "data:audio/mp3;base64," ++ b := by
  unfold generate_fallback_audio
  by_cases hg : env.gttsAvailable
  · cases hb : env.gttsEncoded with
    | none => left; simp [hg, hb]
    | some b => right; exact ⟨b, rfl, by simp [hg, hb]⟩
  · left; simp [hg]

/-- Claim C3: for every input text, voice id and provider outcome, the TTS
adapter reports success with no error category, and its payload is either a
fallback (gTTS audio or the text-only sentinel) or an audio reference
extracted from one of the provider attempts; it never returns failure. -/
theorem text_to_speech_never_fails (text voiceId : String) (env : TtsEnv) :
    (text_to_speech text voiceId env).1 = true ∧
    (text_to_speech text voiceId env).2.2 = none ∧
    ((text_to_speech text voiceId env).2.1 = generate_fallback_audio text env ∨
     (text_to_speech text voiceId env).2.1
       = generate_fallback_audio (ttsTruncate text) env ∨
     ∃ a ∈ env.attempts,
       extractAudio a = some (text_to_speech text voiceId env).2.1) ∧
    (∀ t : String,
      generate_fallback_audio t env = "TEXT_ONLY:" ++ t ∨
      ∃ b, env.gttsEncoded = some b ∧
        generate_fallback_audio t env = "data:audio/mp3;base64," ++ b) := by
  by_cases hm : env.murfConfigured
  · refine ⟨by simp [text_to_speech, hm], by simp [text_to_speech, hm], ?_,
      fun t => generate_fallback_audio_shape t env⟩
    have hloop := murfLoop_cases env.attempts
      (generate_fallback_audio (ttsTruncate text) env)
    rcases hloop with h | ⟨a, ha, he⟩
    · right; left
      simp [text_to_speech, hm, h]
    · right; right
      exact ⟨a, ha, by simpa [text_to_speech, hm] using he⟩
  · refine ⟨by simp [text_to_speech, hm], by simp [text_to_speech, hm], ?_,
      fun t => generate_fallback_audio_shape t env⟩
    left
    simp [text_to_speech, hm]

/-! ### Voice pipeline (src/captain.py `voice_chat_with_captain`)

`PirateMemoryStore.sessions` is modelled as an association list from session
id to the message list (the `joined` timestamp it also stores is unused by
every reader and omitted).  The external calls made by the handler — STT,
the weather/news/shanty skills, the LLM and TTS — are summarised by
`VoiceEnv`, and the handler additionally returns the list of external stages
it actually invoked, in order. -/

/-- A message dict as logged by `captain.py`. -/
structure CMsg where
  role : String
  content : String
  timestamp : Nat
  error_type : Option String
deriving DecidableEq, Repr

/-- `PirateMemoryStore.get_crew_messages`. -/
def get_crew_messages (mem : List (String × List CMsg)) (sid : String) : List CMsg :=
  (aget mem sid).getD []

/-- `PirateMemoryStore.log_message`. -/
def log_message (mem : List (String × List CMsg)) (sid : String) (m : CMsg) :
    List (String × List CMsg) :=
  aset mem sid (get_crew_messages mem sid ++ [m])

/-- `PirateMemoryStore.get_recent_voyage_log`. -/
def get_recent_voyage_log (mem : List (String × List CMsg)) (sid : String)
    (limit : Nat) : List CMsg :=
  if (get_crew_messages mem sid).length > limit
    then pySliceLast (get_crew_messages mem sid) limit
    else get_crew_messages mem sid

/-- External stages the handler can invoke. -/
inductive Stage where
  | sttCall
  | weatherCall
  | newsCall
  | shantyCall
  | llmCall
  | ttsCall
deriving DecidableEq, Repr

/-- Outcome of `get_weather`: either a pirate report (which the skill also
logs as an assistant message) or an error payload `{"error": m}`. -/
inductive WeatherOutcome where
  | report (m : String)
  | err (m : String)
deriving DecidableEq, Repr

/-- Outcome of `get_news`: a pirate news digest (also logged by the skill),
a no-articles payload `{"message": m}`, or an error payload `{"error": m}`. -/
inductive NewsOutcome where
  | report (m : String)
  | noArticles (m : String)
  | err (m : String)
deriving DecidableEq, Repr

structure VoiceEnv where
  /-- `audio.content_type` starts with `audio/` or `video/` -/
  contentTypeOk : Bool
  /-- `len(await audio.read())` -/
  contentLen : Nat
  /-- result of `transcribe_speech`: (success, text, error tag) -/
  stt : Bool × String × Option String
  weather : WeatherOutcome
  news : NewsOutcome
  /-- `random.choice(shanties)` -/
  shanty : String
  /-- result of `get_pirate_response`: (success, text, error tag) -/
  llm : Bool × String × Option String
  /-- result of `generate_pirate_speech`: (success, audio, error tag) -/
  tts : Bool × Option String × Option String
  /-- `time.time()` for logged messages -/
  now : Nat
deriving DecidableEq, Repr

/-- The handler's HTTP-level result. -/
inductive VoiceOut where
  /-- a 400 JSON response `{error, session_id, transcription_error?}` -/
  | badRequest (err : String) (transcriptionError : Option String)
  /-- the 200 JSON response -/
  | ok (transcript response : String) (messageCount : Nat) (recent : List CMsg)
       (hasAudio : Bool) (audioData : Option String)
       (sttErr llmErr ttsErr : Option String)
deriving DecidableEq, Repr

/-- Python truthiness-based `or` on strings: `a or b`. -/
def pyStrOr (a b : String) : String := if a = "" then b else a

/-- Python's `sub in s` for a non-empty needle. -/
def pyContains (s sub : String) : Bool := (s.splitOn sub).length != 1

/-- Intermediate handler state after the skill/LLM routing. -/
structure Mid where
  text : String
  mem : List (String × List CMsg)
  effs : List Stage
  llmErr : Option String
deriving DecidableEq, Repr

/-- The `if "weather" in lower: ... elif "news" ... elif "shanty" ...`
routing; mirrors each skill's response-dict field fallbacks
(`result.get("pirate_report") or result.get("error", default)` etc.) and the
assistant message the weather/news skills log on success. -/
def routeSkill (env : VoiceEnv) (sid : String)
    (mem1 : List (String × List CMsg)) (lower : String) : Mid :=
  if pyContains lower "weather" then
    match env.weather with
    | .report m =>
      ⟨pyStrOr m "Arrr! No forecast today, matey!",
       log_message mem1 sid ⟨"assistant", m, env.now, none⟩, [Stage.weatherCall], none⟩
    | .err m => ⟨m, mem1, [Stage.weatherCall], none⟩
  else if pyContains lower "news" then
    match env.news with
    | .report m =>
      ⟨pyStrOr m "Blimey! Could not fetch news, matey.",
       log_message mem1 sid ⟨"assistant", m, env.now, none⟩, [Stage.newsCall], none⟩
    | .noArticles m =>
      ⟨pyStrOr m "Blimey! Could not fetch news, matey.", mem1, [Stage.newsCall], none⟩
    | .err m => ⟨m, mem1, [Stage.newsCall], none⟩
  else if pyContains lower "shanty" then
    ⟨pyStrOr env.shanty "Arrr! Me voice be too hoarse for singin\u2019, matey!",
     mem1, [Stage.shantyCall], none⟩
  else ⟨"", mem1, [], none⟩

/-- `if not response_text:` — fall through to the LLM, substituting the fixed
fallback line when `get_pirate_response` fails. -/
def runLlm (env : VoiceEnv) (mid : Mid) : Mid :=
  if mid.text = "" then
    match env.llm with
    | (true, text, llmErr) => ⟨text, mid.mem, mid.effs ++ [Stage.llmCall], llmErr⟩
    | (false, _, llmErr) =>
      ⟨"Blast! Me thinking be all muddled! What was that again?",
       mid.mem, mid.effs ++ [Stage.llmCall], llmErr⟩
  else mid

def voice_chat_with_captain (sid : String) (env : VoiceEnv)
    (mem : List (String × List CMsg)) :
    VoiceOut × List (String × List CMsg) × List Stage :=
  if ¬ env.contentTypeOk then
    (.badRequest "That don\x27t sound like proper audio, matey!" none, mem, [])
  else if env.contentLen = 0 then
    (.badRequest "Empty bottle! No message heard!" none, mem, [])
  else
    match env.stt with
    | (false, msg, sttErr) => (.badRequest msg sttErr, mem, [Stage.sttCall])
    | (true, transcript, sttErr) =>
      let mem1 := log_message mem sid ⟨"user", transcript, env.now, none⟩
      let mid := runLlm env (routeSkill env sid mem1 transcript.toLower)
      let mem3 := log_message mid.mem sid ⟨"assistant", mid.text, env.now, mid.llmErr⟩
      (.ok transcript mid.text (get_crew_messages mem3 sid).length
         (get_recent_voyage_log mem3 sid 6)
         env.tts.1 (if env.tts.1 then env.tts.2.1 else none)
         sttErr mid.llmErr env.tts.2.2,
       mem3,
       [Stage.sttCall] ++ mid.effs ++ [Stage.ttsCall])

/-- Claim C4: when speech-to-text fails during a voice-chat request, the
pipeline aborts — the session memory is unchanged (no message of any kind is
appended), neither the LLM nor TTS (nor any skill) is invoked, and the error
response carries the STT failure's error category. -/
theorem stt_failure_aborts_pipeline (sid : String)
    (mem : List (String × List CMsg)) (n : Nat) (msg : String) (cat : String)
    (w : WeatherOutcome) (nw : NewsOutcome) (sh : String)
    (llm : Bool × String × Option String)
    (tts : Bool × Option String × Option String) (now : Nat) :
    voice_chat_with_captain sid
        ⟨true, n + 1, (false, msg, some cat), w, nw, sh, llm, tts, now⟩ mem
      = (VoiceOut.badRequest msg (some cat), mem, [Stage.sttCall]) := by
  simp [voice_chat_with_captain]

/-! ### Summary recomputation (claim C7)

The spec's orchestrator recomputes the rolling session summary after the
assistant message is appended; no orchestrator wired to
`services/memory.MemoryStore` appears under the sources, so this step is
modelled from the specification text and settled against the real
`set_summary` / `get_summary` / `get_messages` definitions above. -/

/-- Modelled from the spec: the Message record of the spec's data model
({role, content, timestamp, error_type}); the orchestrator that would build
these alongside `MemoryStore` is missing from the sources. -/
structure SMsg where
  role : String
  content : String
  timestamp : Nat
  error_type : Option String
deriving DecidableEq, Repr

/-- Modelled from the spec: each summarised message is "clipped to ~180
characters". -/
def clip180 (s : String) : String := s.take 180

/-- Modelled from the spec: the "User asked: …" / "Assistant answered: …"
line for one message; roles other than user/assistant have no line format in
the spec and contribute none. -/
def summary_line (m : SMsg) : Option String :=
  if m.role = "user" then some ("User asked: " ++ clip180 m.content)
  else if m.role = "assistant" then some ("Assistant answered: " ++ clip180 m.content)
  else none

/-- Modelled from the spec: the session summary computed "from the last 10
messages", formatted line per message, "keep last 6 lines joined". -/
def compute_summary (msgs : List SMsg) : String :=
  let lastTen := msgs.drop (msgs.length - 10)
  let lines := lastTen.filterMap summary_line
  String.intercalate "\n" (lines.drop (lines.length - 6))

/-- Modelled from the spec: the orchestrator's post-append summary step,
missing from the sources — "Every 10th message, recompute and persist session
Summary", i.e. exactly when `len(messages) % 10 == 0`, via the store's real
`get_messages` / `set_summary`. -/
def maybe_summarize (s : Store SMsg) (sid : String) : Store SMsg :=
  if (get_messages s sid).1.length % 10 = 0 then
    set_summary (get_messages s sid).2 sid (compute_summary (get_messages s sid).1)
  else (get_messages s sid).2

theorem get_messages_idem {α : Type} (s : Store α) (sid : String) :
    get_messages (get_messages s sid).2 sid
      = ((get_messages s sid).1, (get_messages s sid).2) := by
  rw [get_messages_of_cached (get_messages s sid).2 sid _
    (get_messages_cache_loaded s sid)]

theorem get_summary_after_set {α : Type} (s : Store α) (sid x : String) :
    (get_summary (set_summary s sid x) sid).1 = x := by
  obtain ⟨hc, _⟩ := set_summary_lookup s sid x
  unfold get_summary
  rw [get_messages_of_cached (set_summary s sid x) sid _ hc]
  simp [hc]

/-- Claim C7 (spec-modelled step): the session summary is recomputed and
persisted exactly when the session's message count is a multiple of 10 and
never otherwise; when recomputed it is `compute_summary` of the stored
messages — the last 10 messages, each clipped to ~180 characters, last 6
formatted lines joined — and it is written to the session file alongside the
unchanged messages. -/
theorem summary_recompute_exactly_every_ten (s : Store SMsg) (sid : String) :
    (get_summary (maybe_summarize s sid) sid).1
      = (if (get_messages s sid).1.length % 10 = 0
          then compute_summary (get_messages s sid).1
          else (get_summary s sid).1) ∧
    ((get_messages s sid).1.length % 10 = 0 →
      aget (maybe_summarize s sid).files sid
        = some ⟨(get_messages s sid).1, compute_summary (get_messages s sid).1⟩) := by
  constructor
  · by_cases h10 : (get_messages s sid).1.length % 10 = 0
    · rw [if_pos h10]
      unfold maybe_summarize
      rw [if_pos h10]
      exact get_summary_after_set (get_messages s sid).2 sid _
    · rw [if_neg h10]
      unfold maybe_summarize
      rw [if_neg h10]
      unfold get_summary
      rw [get_messages_idem]
  · intro h10
    unfold maybe_summarize
    rw [if_pos h10]
    have hf := (set_summary_lookup (get_messages s sid).2 sid
      (compute_summary (get_messages s sid).1)).2
    rw [hf, get_messages_idem]

/-- A concrete store whose session "s" holds ten cached messages. -/
def c7store : Store SMsg :=
  ⟨[("s", ⟨List.replicate 10 ⟨"user", "hello", 0, none⟩, ""⟩)], []⟩

/-- Witness for C7's persistence clause at a concrete store whose session
has ten messages. -/
theorem summary_recompute_exactly_every_ten_witness :
    ((get_messages (c7store) "s").1.length % 10 = 0) ∧
    aget (maybe_summarize (c7store) "s").files "s"
      = some ⟨(get_messages (c7store) "s").1,
              compute_summary (get_messages (c7store) "s").1⟩ :=
  ⟨by decide, (summary_recompute_exactly_every_ten (c7store) "s").2 (by decide)⟩

end AIPirate
